import Mathlib

/-!
Shallow embedding of `src/bot.py` (a Telegram ↔ Gemini relay bot).

Text is modelled as `List Char` (Python strings are sequences of code
points, so one `Char` = one Python character = one "unit" of length).
Exceptions are modelled as explicit sum-type results; the behaviour of the
external generation API and of the chat transport is a parameter (a
function from attempt index to the result of that attempt).
-/

namespace Bot

/-! ### Configuration constants (bot.py lines 18-20) -/

def MAX_RETRIES : Nat := 3

def BASE_DELAY : Nat := 1

def MAX_DELAY : Nat := 60

/-! ### Python string primitives on `List Char` -/

/-- Python `needle in haystack` (substring containment, `"" in s` is true). -/
def containsSub (needle : List Char) : List Char → Bool
  | [] => needle.isEmpty
  | c :: rest => needle.isPrefixOf (c :: rest) || containsSub needle rest

/-- Whitespace stripped by Python `str.strip()` (ASCII subset). -/
def isPySpace (c : Char) : Bool :=
  c == ' ' || c == '\t' || c == '\n' || c == '\r' || c == '\x0b' || c == '\x0c'

/-- Remove leading whitespace. -/
def lstripL : List Char → List Char
  | [] => []
  | c :: t => if isPySpace c then lstripL t else c :: t

/-- Python `str.strip()`: remove leading and trailing whitespace. -/
def strip (s : List Char) : List Char :=
  (lstripL (lstripL s).reverse).reverse

/-- Python `str.lower()` (ASCII subset, enough for the rate-limit markers). -/
def lowerList (s : List Char) : List Char := s.map Char.toLower

/-- Fuel-driven worker for `replaceAll`; fuel bounds the number of steps,
    `replaceAll` passes the length of the string, which always suffices. -/
def replaceAllGo (pat repl : List Char) : Nat → List Char → List Char
  | _, [] => []
  | 0, s => s
  | fuel + 1, c :: rest =>
    if pat ≠ [] ∧ pat.isPrefixOf (c :: rest) then
      repl ++ replaceAllGo pat repl fuel ((c :: rest).drop pat.length)
    else
      c :: replaceAllGo pat repl fuel rest

/-- Python `s.replace(pat, repl)` (all non-overlapping occurrences, left to
    right). The bot only calls this with a non-empty pattern (`"@" + username`). -/
def replaceAll (pat repl s : List Char) : List Char :=
  replaceAllGo pat repl s.length s

/-! ### Generation side: exceptions and the retry engine (bot.py 47-79) -/

/-- Result of one invocation of the wrapped synchronous call: either a
    returned string or a raised exception, identified by its `str(e)`. -/
inductive CallResult where
  | success (text : List Char)
  | failure (err : List Char)
  deriving DecidableEq

/-- The exception/return channel of `exponential_backoff_retry`:
    a returned value, a raised `RateLimitError`, or a raised `APIError`. -/
inductive RetryOutcome where
  | ok (text : List Char)
  | rateLimitError (msg : List Char)
  | apiError (msg : List Char)
  deriving DecidableEq

/-- Observable trace of one run of the retry loop: the final outcome, the
    list of back-off sleep durations (seconds, in order), and the number of
    invocations of the wrapped call. -/
structure RetryTrace where
  outcome : RetryOutcome
  sleeps : List Nat
  calls : Nat
  deriving DecidableEq

def rateLimitExceededMsg : List Char := "Rate limit exceeded after all retries".data

def maxRetriesExceededMsg : List Char := "Max retries exceeded".data

def apiErrorTag : List Char := "API error: ".data

/-- bot.py line 66: `any(indicator in error_str for indicator in [...])`
    with `error_str = str(e).lower()`. -/
def isRateLimited (e : List Char) : Bool :=
  let s := lowerList e
  containsSub "429".data s || containsSub "rate limit".data s ||
    containsSub "quota".data s || containsSub "resource has been exhausted".data s

/-- bot.py line 71. -/
def backoffDelay (attempt : Nat) : Nat :=
  min (BASE_DELAY * 2 ^ attempt) MAX_DELAY

/-- The body of `for attempt in range(maxRetries)` from bot.py lines 59-79,
    unrolled on remaining iterations (`fuel`); `attempt + fuel = maxRetries`
    at every call from `exponential_backoff_retry`. Exhausting the loop
    falls through to `raise APIError("Max retries exceeded")` (line 79). -/
def retryGo (call : Nat → CallResult) (maxRetries : Nat) : Nat → Nat → RetryTrace
  | _, 0 => ⟨.apiError maxRetriesExceededMsg, [], 0⟩
  | attempt, fuel + 1 =>
    match call attempt with
    | .success t => ⟨.ok t, [], 1⟩
    | .failure e =>
      if isRateLimited e then
        if attempt = maxRetries - 1 then
          ⟨.rateLimitError rateLimitExceededMsg, [], 1⟩
        else
          let r := retryGo call maxRetries (attempt + 1) fuel
          ⟨r.outcome, backoffDelay attempt :: r.sleeps, r.calls + 1⟩
      else
        ⟨.apiError (apiErrorTag ++ e), [], 1⟩

/-- bot.py lines 55-79. `call` gives the behaviour of
    `asyncio.to_thread(func, *args, **kwargs)` on each attempt. -/
def exponential_backoff_retry (maxRetries : Nat) (call : Nat → CallResult) : RetryTrace :=
  retryGo call maxRetries 0 maxRetries

/-! ### get_ai_response: outcome-to-user-text mapping (bot.py 103-117) -/

def slowDownText : List Char :=
  "🐌 Whoa there! Too many messages at once. I need a breather. Try again in a minute?".data

def notConfiguredText : List Char :=
  "Oops, looks like my brain isn\x27t connected. Someone forgot to plug me in properly! 🔌".data

def crashedText : List Char :=
  "My brain just crashed for a second there. Give me a moment to reboot! 🤖💭".data

/-- bot.py lines 103-117: run the retry loop and map every raised error to a
    fixed user-facing fallback string. Returns the text handed to delivery
    together with the back-off sleeps performed. (The final
    `except Exception` arm of the source cannot fire in this model: the
    retry loop only raises `RateLimitError` or `APIError`.) -/
def get_ai_response (call : Nat → CallResult) : List Char × List Nat :=
  let r := exponential_backoff_retry MAX_RETRIES call
  match r.outcome with
  | .ok t => (t, r.sleeps)
  | .rateLimitError _ => (slowDownText, r.sleeps)
  | .apiError m =>
    (if containsSub "api key not configured".data (lowerList m) then
       notConfiguredText
     else crashedText,
     r.sleeps)

/-! ### Delivery: send_message_with_retry (bot.py 119-147) -/

/-- Behaviour of one `context.bot.send_message` attempt: success, or one of
    the exception classes distinguished by the source's `except` arms
    (`RetryAfter` with its reported wait, `TimedOut`/`NetworkError`, other
    `TelegramError`). -/
inductive SendResp where
  | ok
  | retryAfter (secs : Nat)
  | timeout
  | network
  | otherTg
  deriving DecidableEq

/-- How `send_message_with_retry` terminates: returned the sent message,
    fell off the end of the `for` loop returning `None` (no send, no
    exception), or propagated an exception. -/
inductive SendOutcome where
  | sent
  | returnedNone
  | raised
  deriving DecidableEq

/-- Observable trace of one run of the delivery loop: terminal outcome, the
    sleep durations performed (seconds, in order), and the number of
    `send_message` invocations. -/
structure SendTrace where
  outcome : SendOutcome
  sleeps : List Nat
  calls : Nat
  deriving DecidableEq

/-- The body of `for attempt in range(MAX_RETRIES)` from bot.py lines
    123-147, unrolled on remaining iterations. `RetryAfter` sleeps the
    transport-reported duration and continues (no last-attempt check);
    `TimedOut`/`NetworkError` re-raises on the last attempt and otherwise
    sleeps `BASE_DELAY * 2 ^ attempt` (uncapped); any other `TelegramError`
    raises immediately. -/
def sendGo (resp : Nat → SendResp) : Nat → Nat → SendTrace
  | _, 0 => ⟨.returnedNone, [], 0⟩
  | attempt, fuel + 1 =>
    match resp attempt with
    | .ok => ⟨.sent, [], 1⟩
    | .retryAfter r =>
      let t := sendGo resp (attempt + 1) fuel
      ⟨t.outcome, r :: t.sleeps, t.calls + 1⟩
    | .timeout =>
      if attempt = MAX_RETRIES - 1 then ⟨.raised, [], 1⟩
      else
        let t := sendGo resp (attempt + 1) fuel
        ⟨t.outcome, BASE_DELAY * 2 ^ attempt :: t.sleeps, t.calls + 1⟩
    | .network =>
      if attempt = MAX_RETRIES - 1 then ⟨.raised, [], 1⟩
      else
        let t := sendGo resp (attempt + 1) fuel
        ⟨t.outcome, BASE_DELAY * 2 ^ attempt :: t.sleeps, t.calls + 1⟩
    | .otherTg => ⟨.raised, [], 1⟩

/-- bot.py lines 119-147. `resp` gives the transport's behaviour on each
    send attempt. -/
def send_message_with_retry (resp : Nat → SendResp) : SendTrace :=
  sendGo resp 0 MAX_RETRIES

/-! ### Classifier (bot.py 162-190) and truncation (bot.py 202-203) -/

/-- `message.chat.type` values relevant to the handler. -/
inductive ChatKind where
  | privateChat
  | group
  | supergroup
  | channel
  deriving DecidableEq

/-- bot.py line 173: `chat_type in ["group", "supergroup"]`. -/
def isGroupish : ChatKind → Bool
  | .group => true
  | .supergroup => true
  | _ => false

/-- What the handler decides before contacting generation: return without
    any output, send the fixed "too long" reply, or forward `text` to
    generation. -/
inductive Decision where
  | ignore
  | tooLong
  | respond (text : List Char)
  deriving DecidableEq

/-- bot.py lines 185-190: the length checks applied to `user_message`
    after the group-chat mention handling. -/
def finishClassify (t : List Char) : Decision :=
  if (strip t).length = 0 then .ignore
  else if t.length > 4000 then .tooLong
  else .respond t

/-- bot.py lines 173-190: the group gate (reply-to-bot or `@username`
    substring), mention stripping, and the length checks. `isReplyToBot`
    models `message.reply_to_message.from_user.username == bot_username`. -/
def classify (kind : ChatKind) (isReplyToBot : Bool) (botUsername rawText : List Char) :
    Decision :=
  if isGroupish kind then
    if !isReplyToBot && !containsSub ('@' :: botUsername) rawText then .ignore
    else finishClassify (strip (replaceAll ('@' :: botUsername) [] rawText))
  else finishClassify rawText

/-- The normalized text the length checks run on: for group chats the
    mention-stripped trimmed text, for other chats the raw text verbatim. -/
def normalizedText (kind : ChatKind) (botUsername rawText : List Char) : List Char :=
  if isGroupish kind then strip (replaceAll ('@' :: botUsername) [] rawText)
  else rawText

def truncMarker : List Char := "... 📝".data

/-- bot.py lines 202-203: `if len(ai_response) > 4096:
    ai_response = ai_response[:4090] + "... 📝"`. -/
def truncateReply (s : List Char) : List Char :=
  if s.length > 4096 then s.take 4090 ++ truncMarker else s

/-! ### handle_message orchestration (bot.py 158-218) -/

def tooLongText : List Char :=
  "Whoa, that\x27s a novel! Can you keep it shorter? My attention span isn\x27t that long! 📚".data

def oopsText : List Char := "Oops, something went wrong! My bad! 🤷‍♂️".data

/-- Inputs of one `handle_message` invocation: the message fields the
    handler reads, plus the behaviour of the two external collaborators
    (generation attempts and delivery attempts). `tooLongSendOk` /
    `fallbackSendOk` say whether the direct `reply_text` sends (the "too
    long" reply on line 189, the generic fallback on line 216) succeed. -/
structure HandlerEnv where
  kind : ChatKind
  isReplyToBot : Bool
  botUsername : List Char
  rawText : List Char
  genCall : Nat → CallResult
  sendResp : Nat → SendResp
  tooLongSendOk : Bool
  fallbackSendOk : Bool

/-- Observable trace of one `handle_message` run: the texts actually
    delivered to the chat (in order), the prompt forwarded to generation
    (if any), and the sleeps performed by each retry engine. -/
structure HandlerTrace where
  out : List (List Char)
  genPrompt : Option (List Char)
  genSleeps : List Nat
  sendSleeps : List Nat
  deriving DecidableEq

/-- bot.py lines 158-218. The `get_me` call and the best-effort typing
    action (lines 193-196, failures swallowed) are assumed to succeed; the
    outer `except` (lines 213-218) fires when a `reply_text` or the
    delivery loop raises, and attempts one generic fallback reply whose own
    failure is only logged. -/
def handle_message (env : HandlerEnv) : HandlerTrace :=
  match classify env.kind env.isReplyToBot env.botUsername env.rawText with
  | .ignore => ⟨[], none, [], []⟩
  | .tooLong =>
    if env.tooLongSendOk then ⟨[tooLongText], none, [], []⟩
    else if env.fallbackSendOk then ⟨[oopsText], none, [], []⟩
    else ⟨[], none, [], []⟩
  | .respond t =>
    let g := get_ai_response env.genCall
    let ai := truncateReply g.1
    let s := send_message_with_retry env.sendResp
    match s.outcome with
    | .sent => ⟨[ai], some t, g.2, s.sleeps⟩
    | .returnedNone => ⟨[], some t, g.2, s.sleeps⟩
    | .raised =>
      if env.fallbackSendOk then ⟨[oopsText], some t, g.2, s.sleeps⟩
      else ⟨[], some t, g.2, s.sleeps⟩

/-! ## Helper lemmas -/

theorem lstripL_length_le (s : List Char) : (lstripL s).length ≤ s.length := by
  induction s with
  | nil => simp [lstripL]
  | cons c t ih =>
    simp only [lstripL]
    by_cases h : isPySpace c = true
    · simp only [h, if_true]
      exact Nat.le_trans ih (by simp)
    · simp [h]

theorem strip_length_le (s : List Char) : (strip s).length ≤ s.length := by
  unfold strip
  calc (lstripL (lstripL s).reverse).reverse.length
      = (lstripL (lstripL s).reverse).length := by simp
    _ ≤ (lstripL s).reverse.length := lstripL_length_le _
    _ = (lstripL s).length := by simp
    _ ≤ s.length := lstripL_length_le s

theorem apiTag_append_ne (e : List Char) : apiErrorTag ++ e ≠ maxRetriesExceededMsg := by
  intro h
  have h1 : List.head? (apiErrorTag ++ e) = some 'A' := rfl
  have h2 : List.head? maxRetriesExceededMsg = some 'M' := rfl
  rw [h, h2] at h1
  exact absurd h1 (by decide)

/-- One unfolding of the loop body when the wrapped call succeeds. -/
theorem retryGo_success_step (call : Nat → CallResult) (maxRetries attempt fuel : Nat)
    (t : List Char) (hc : call attempt = .success t) :
    retryGo call maxRetries attempt (fuel + 1) = ⟨.ok t, [], 1⟩ := by
  unfold retryGo; rw [hc]

/-- One unfolding of the loop body: rate-limited failure on the last attempt. -/
theorem retryGo_rl_last_step (call : Nat → CallResult) (maxRetries attempt fuel : Nat)
    (e : List Char) (hc : call attempt = .failure e) (hrl : isRateLimited e = true)
    (hlast : attempt = maxRetries - 1) :
    retryGo call maxRetries attempt (fuel + 1) =
      ⟨.rateLimitError rateLimitExceededMsg, [], 1⟩ := by
  unfold retryGo; rw [hc]; simp only [hrl, if_true]; rw [if_pos hlast]

/-- One unfolding of the loop body: rate-limited failure with attempts left. -/
theorem retryGo_rl_cont_step (call : Nat → CallResult) (maxRetries attempt fuel : Nat)
    (e : List Char) (hc : call attempt = .failure e) (hrl : isRateLimited e = true)
    (hne : ¬ attempt = maxRetries - 1) :
    retryGo call maxRetries attempt (fuel + 1) =
      ⟨(retryGo call maxRetries (attempt + 1) fuel).outcome,
        backoffDelay attempt :: (retryGo call maxRetries (attempt + 1) fuel).sleeps,
        (retryGo call maxRetries (attempt + 1) fuel).calls + 1⟩ := by
  conv_lhs => rw [retryGo]
  rw [hc]; simp only [hrl, if_true]; rw [if_neg hne]

/-- One unfolding of the loop body: non-rate-limit failure raises at once. -/
theorem retryGo_perm_step (call : Nat → CallResult) (maxRetries attempt fuel : Nat)
    (e : List Char) (hc : call attempt = .failure e) (hrl : isRateLimited e = false) :
    retryGo call maxRetries attempt (fuel + 1) = ⟨.apiError (apiErrorTag ++ e), [], 1⟩ := by
  unfold retryGo; rw [hc]; simp [hrl]

theorem range_map_shift (g : Nat → Nat) (a N : Nat) :
    (List.range (N + 1)).map (fun i => g (a + i)) =
      g a :: (List.range N).map (fun i => g (a + 1 + i)) := by
  rw [List.range_succ_eq_map, List.map_cons, List.map_map]
  refine congrArg₂ List.cons (by simp) ?_
  refine List.map_congr_left fun i _ => ?_
  simp only [Function.comp_apply]
  exact congrArg g (by omega)

theorem retryGo_rl_then_success (call : Nat → CallResult) (maxRetries : Nat) (t : List Char) :
    ∀ (N attempt fuel : Nat) (errs : Nat → List Char),
      attempt + fuel = maxRetries → N < fuel →
      (∀ i, i < N → call (attempt + i) = .failure (errs i) ∧ isRateLimited (errs i) = true) →
      call (attempt + N) = .success t →
      retryGo call maxRetries attempt fuel =
        ⟨.ok t, (List.range N).map (fun i => backoffDelay (attempt + i)), N + 1⟩ := by
  intro N
  induction N with
  | zero =>
    intro attempt fuel errs hsum hfuel _ hsucc
    obtain ⟨f, rfl⟩ : ∃ f, fuel = f + 1 := ⟨fuel - 1, by omega⟩
    rw [Nat.add_zero] at hsucc
    rw [retryGo_success_step call maxRetries attempt f t hsucc]
    simp
  | succ N ih =>
    intro attempt fuel errs hsum hfuel hfail hsucc
    obtain ⟨f, rfl⟩ : ∃ f, fuel = f + 1 := ⟨fuel - 1, by omega⟩
    have h0 := hfail 0 (Nat.succ_pos N)
    rw [Nat.add_zero] at h0
    have hne : ¬ attempt = maxRetries - 1 := by omega
    have hrec := ih (attempt + 1) f (fun i => errs (i + 1)) (by omega) (by omega)
      (fun i hi => by
        have h2 := hfail (i + 1) (by omega)
        refine ⟨?_, h2.2⟩
        rw [show attempt + 1 + i = attempt + (i + 1) by omega]
        exact h2.1)
      (by rw [show attempt + 1 + N = attempt + (N + 1) by omega]; exact hsucc)
    rw [retryGo_rl_cont_step call maxRetries attempt f (errs 0) h0.1 h0.2 hne, hrec,
      range_map_shift]

theorem retryGo_rl_exhaust (call : Nat → CallResult) (maxRetries : Nat) :
    ∀ (f attempt : Nat) (errs : Nat → List Char),
      attempt + (f + 1) = maxRetries →
      (∀ i, i ≤ f → call (attempt + i) = .failure (errs i) ∧ isRateLimited (errs i) = true) →
      retryGo call maxRetries attempt (f + 1) =
        ⟨.rateLimitError rateLimitExceededMsg,
          (List.range f).map (fun i => backoffDelay (attempt + i)), f + 1⟩ := by
  intro f
  induction f with
  | zero =>
    intro attempt errs hsum hfail
    have h0 := hfail 0 (Nat.le_refl 0)
    rw [Nat.add_zero] at h0
    have hlast : attempt = maxRetries - 1 := by omega
    rw [retryGo_rl_last_step call maxRetries attempt 0 (errs 0) h0.1 h0.2 hlast]
    simp
  | succ f ih =>
    intro attempt errs hsum hfail
    have h0 := hfail 0 (Nat.zero_le _)
    rw [Nat.add_zero] at h0
    have hne : ¬ attempt = maxRetries - 1 := by omega
    have hrec := ih (attempt + 1) (fun i => errs (i + 1)) (by omega)
      (fun i hi => by
        have h2 := hfail (i + 1) (by omega)
        refine ⟨?_, h2.2⟩
        rw [show attempt + 1 + i = attempt + (i + 1) by omega]
        exact h2.1)
    rw [retryGo_rl_cont_step call maxRetries attempt (f + 1) (errs 0) h0.1 h0.2 hne, hrec,
      range_map_shift]

theorem retryGo_ne_maxExceeded (call : Nat → CallResult) (maxRetries : Nat) :
    ∀ (fuel attempt : Nat), attempt + fuel = maxRetries → 1 ≤ fuel →
      (retryGo call maxRetries attempt fuel).outcome ≠ .apiError maxRetriesExceededMsg := by
  intro fuel
  induction fuel with
  | zero => intro attempt _ h2; omega
  | succ f ih =>
    intro attempt hsum _
    cases hc : call attempt with
    | success t => rw [retryGo_success_step call maxRetries attempt f t hc]; simp
    | failure e =>
      by_cases hrl : isRateLimited e = true
      · by_cases hlast : attempt = maxRetries - 1
        · rw [retryGo_rl_last_step call maxRetries attempt f e hc hrl hlast]; simp
        · have hf : 1 ≤ f := by omega
          rw [retryGo_rl_cont_step call maxRetries attempt f e hc hrl hlast]
          exact ih (attempt + 1) (by omega) hf
      · rw [Bool.not_eq_true] at hrl
        rw [retryGo_perm_step call maxRetries attempt f e hc hrl]
        simp only [ne_eq, RetryOutcome.apiError.injEq]
        exact apiTag_append_ne e

/-! ## Claim theorems: generation retry engine -/

/-- C1: for every sequence of N rate-limit-classified failures from the
    generation call followed by a Success, with max_attempts ≥ N+1, the
    retry loop performs exactly N backoff sleeps of
    min(base_delay * 2^attempt, max_delay) seconds for attempt = 0..N-1,
    invokes the call N+1 times, and returns the Success result. -/
theorem generation_retry_rl_then_success (maxRetries N : Nat) (call : Nat → CallResult)
    (errs : Nat → List Char) (t : List Char)
    (hmax : N + 1 ≤ maxRetries)
    (hfail : ∀ i, i < N → call i = .failure (errs i) ∧ isRateLimited (errs i) = true)
    (hsucc : call N = .success t) :
    exponential_backoff_retry maxRetries call =
      ⟨.ok t, (List.range N).map (fun i => min (BASE_DELAY * 2 ^ i) MAX_DELAY), N + 1⟩ := by
  have h := retryGo_rl_then_success call maxRetries t N 0 maxRetries errs (by omega) (by omega)
    (fun i hi => by simpa using hfail i hi) (by simpa using hsucc)
  simpa [exponential_backoff_retry, backoffDelay] using h

theorem generation_retry_rl_then_success_witness :
    exponential_backoff_retry 3
        (fun i => if i < 2 then CallResult.failure "429".data else CallResult.success "hi".data) =
      ⟨.ok "hi".data, (List.range 2).map (fun i => min (BASE_DELAY * 2 ^ i) MAX_DELAY), 3⟩ :=
  generation_retry_rl_then_success 3 2
    (fun i => if i < 2 then CallResult.failure "429".data else CallResult.success "hi".data)
    (fun _ => "429".data) "hi".data (by decide) (by decide) (by decide)

/-- C2: for every non-rate-limit (permanent) failure raised on attempt 0,
    the retry loop performs zero sleeps, invokes the call exactly once, and
    surfaces that failure (as `APIError("API error: " + e)`) immediately. -/
theorem generation_retry_permanent_no_retry (maxRetries : Nat) (call : Nat → CallResult)
    (e : List Char) (hmax : 1 ≤ maxRetries) (hfail : call 0 = .failure e)
    (hperm : isRateLimited e = false) :
    exponential_backoff_retry maxRetries call = ⟨.apiError (apiErrorTag ++ e), [], 1⟩ := by
  obtain ⟨f, hf⟩ : ∃ f, maxRetries = f + 1 := ⟨maxRetries - 1, by omega⟩
  rw [exponential_backoff_retry, hf]
  simp [retryGo, hfail, hperm]

theorem generation_retry_permanent_no_retry_witness :
    exponential_backoff_retry 3 (fun _ => CallResult.failure "boom".data) =
      ⟨.apiError (apiErrorTag ++ "boom".data), [], 1⟩ :=
  generation_retry_permanent_no_retry 3 (fun _ => CallResult.failure "boom".data)
    "boom".data (by decide) (by decide) (by decide)

/-- C6: if the generation call fails with a rate-limit signal on all
    MAX_RETRIES = 3 attempts, the loop's final outcome is the raised
    `RateLimitError` (rate-limit exhaustion) and `get_ai_response` returns
    the fixed "slow down" fallback text for delivery. -/
theorem generation_rl_exhaust_slowdown (call : Nat → CallResult) (errs : Nat → List Char)
    (hfail : ∀ i, i < MAX_RETRIES →
      call i = .failure (errs i) ∧ isRateLimited (errs i) = true) :
    (exponential_backoff_retry MAX_RETRIES call).outcome =
      .rateLimitError rateLimitExceededMsg ∧
    (get_ai_response call).1 = slowDownText := by
  have h := retryGo_rl_exhaust call MAX_RETRIES 2 0 errs (by decide)
    (fun i hi => by simpa using hfail i (show i < MAX_RETRIES by change i < 3; omega))
  have h2 : exponential_backoff_retry MAX_RETRIES call =
      ⟨.rateLimitError rateLimitExceededMsg,
        (List.range 2).map (fun i => backoffDelay (0 + i)), 3⟩ := h
  refine ⟨by rw [h2], ?_⟩
  rw [get_ai_response, h2]

theorem generation_rl_exhaust_slowdown_witness :
    (exponential_backoff_retry MAX_RETRIES (fun _ => CallResult.failure "quota".data)).outcome =
      .rateLimitError rateLimitExceededMsg ∧
    (get_ai_response (fun _ => CallResult.failure "quota".data)).1 = slowDownText :=
  generation_rl_exhaust_slowdown (fun _ => CallResult.failure "quota".data)
    (fun _ => "quota".data) (by decide)

theorem lstripL_replicate_a (n : Nat) :
    lstripL (List.replicate n 'a') = List.replicate n 'a' := by
  cases n with
  | zero => rfl
  | succ m =>
    have hsp : isPySpace 'a' = false := rfl
    simp only [List.replicate_succ, lstripL, hsp, Bool.false_eq_true, if_false]

theorem strip_replicate_a (n : Nat) :
    strip (List.replicate n 'a') = List.replicate n 'a' := by
  rw [strip, lstripL_replicate_a, List.reverse_replicate, lstripL_replicate_a,
    List.reverse_replicate]

/-! ## Claim theorems: truncation and classifier -/

/-- Condition-free characterization of `finishClassify t = respond s`. -/
theorem finishClassify_eq_respond (t s : List Char) :
    finishClassify t = .respond s ↔
      (strip t).length ≠ 0 ∧ t.length ≤ 4000 ∧ s = t := by
  rw [finishClassify]
  by_cases h0 : (strip t).length = 0
  · simp [h0]
  · by_cases h4 : t.length > 4000
    · simp [h0, h4]
    · have h4le : t.length ≤ 4000 := by omega
      simp [h0, h4, h4le, eq_comm]

/-- `classify` on a group chat, with the Bool gate spelled out as a Prop. -/
theorem classify_group_eq (isReplyToBot : Bool) (u raw : List Char) :
    classify .group isReplyToBot u raw =
      if isReplyToBot = false ∧ containsSub ('@' :: u) raw = false then .ignore
      else finishClassify (strip (replaceAll ('@' :: u) [] raw)) := by
  rw [classify, if_pos (show isGroupish ChatKind.group = true from rfl)]
  refine if_congr ?_ rfl rfl
  simp

/-- C5 counterexample: a generated reply of 5000 units is delivered as 4095
    units (4090 kept plus the 5-unit marker "... 📝"), not as the 4093 the
    claim states. -/
theorem truncation_total_4093_cex :
    (truncateReply (List.replicate 5000 'a')).length = 4095 ∧
    (truncateReply (List.replicate 5000 'a')).length ≠ 4093 := by
  have hm : truncMarker.length = 5 := rfl
  have h : truncateReply (List.replicate 5000 'a') =
      (List.replicate 5000 'a').take 4090 ++ truncMarker := by
    rw [truncateReply, if_pos (by rw [List.length_replicate]; omega)]
  refine ⟨?_, ?_⟩ <;>
    · rw [h, List.length_append, List.length_take, List.length_replicate, hm]
      omega

/-- C5 amended: every delivered reply is at most 4096 units; a reply longer
    than 4096 units is delivered as its first 4090 units plus the fixed
    marker "... 📝", for a total of 4095 units. -/
theorem truncation_bounds (s : List Char) :
    (truncateReply s).length ≤ 4096 ∧
    (4096 < s.length →
      truncateReply s = s.take 4090 ++ truncMarker ∧ (truncateReply s).length = 4095) := by
  have hm : truncMarker.length = 5 := rfl
  by_cases h : s.length > 4096
  · have he : truncateReply s = s.take 4090 ++ truncMarker := by
      rw [truncateReply, if_pos h]
    have hl : (truncateReply s).length = 4095 := by
      rw [he, List.length_append, List.length_take, hm]
      omega
    exact ⟨by rw [hl]; omega, fun _ => ⟨he, hl⟩⟩
  · have he : truncateReply s = s := by rw [truncateReply, if_neg h]
    exact ⟨by rw [he]; omega, fun hc => absurd hc h⟩

theorem truncation_bounds_witness :
    truncateReply (List.replicate 5000 'a') =
      (List.replicate 5000 'a').take 4090 ++ truncMarker ∧
    (truncateReply (List.replicate 5000 'a')).length = 4095 :=
  (truncation_bounds (List.replicate 5000 'a')).2 (by rw [List.length_replicate]; omega)

/-- C7 counterexample: the private-chat input " hi" has non-empty trimmed
    text of at most 4000 units, yet the classifier forwards the raw text
    " hi", not the trimmed text "hi". -/
theorem private_trimmed_forward_cex :
    (strip " hi".data).length ≠ 0 ∧ (strip " hi".data).length ≤ 4000 ∧
    classify .privateChat false "alexbot".data " hi".data = .respond " hi".data ∧
    ¬ classify .privateChat false "alexbot".data " hi".data = .respond (strip " hi".data) := by
  decide

/-- C7 amended: for every private-chat message whose trimmed text is
    non-empty and whose raw text is at most 4000 units, the classifier
    decides Respond and the text forwarded to generation is the raw input
    verbatim (untrimmed). -/
theorem private_chat_respond_raw (isReplyToBot : Bool) (u raw : List Char)
    (h1 : (strip raw).length ≠ 0) (h2 : raw.length ≤ 4000) :
    classify .privateChat isReplyToBot u raw = .respond raw := by
  rw [classify, if_neg (by decide : ¬ isGroupish ChatKind.privateChat = true),
    finishClassify, if_neg h1, if_neg (by omega : ¬ raw.length > 4000)]

theorem private_chat_respond_raw_witness :
    classify .privateChat false "alexbot".data "hello".data = .respond "hello".data :=
  private_chat_respond_raw false "alexbot".data "hello".data (by decide) (by decide)

/-- C8: a message whose normalized text trims to length 0 is ignored (no
    outbound message, no generation call); a message that passes the group
    gate and whose normalized text trims to more than 4000 units gets the
    fixed "too long" reply (delivered when that send succeeds) and
    generation is never invoked. -/
theorem length_gate_checks (env : HandlerEnv) :
    ((strip (normalizedText env.kind env.botUsername env.rawText)).length = 0 →
      classify env.kind env.isReplyToBot env.botUsername env.rawText = .ignore ∧
      (handle_message env).out = [] ∧ (handle_message env).genPrompt = none) ∧
    ((isGroupish env.kind = true →
        env.isReplyToBot = true ∨ containsSub ('@' :: env.botUsername) env.rawText = true) →
      4000 < (strip (normalizedText env.kind env.botUsername env.rawText)).length →
      env.tooLongSendOk = true →
      classify env.kind env.isReplyToBot env.botUsername env.rawText = .tooLong ∧
      (handle_message env).out = [tooLongText] ∧ (handle_message env).genPrompt = none) := by
  constructor
  · intro h0
    have hcl : classify env.kind env.isReplyToBot env.botUsername env.rawText = .ignore := by
      rw [classify]
      by_cases hg : isGroupish env.kind = true
      · rw [normalizedText, if_pos hg] at h0
        rw [if_pos hg]
        by_cases hgate :
            (!env.isReplyToBot && !containsSub ('@' :: env.botUsername) env.rawText) = true
        · rw [if_pos hgate]
        · rw [if_neg hgate, finishClassify, if_pos h0]
      · rw [normalizedText, if_neg hg] at h0
        rw [if_neg hg, finishClassify, if_pos h0]
    refine ⟨hcl, ?_, ?_⟩ <;> simp [handle_message, hcl]
  · intro hgate h4 htl
    have hstrip := strip_length_le (normalizedText env.kind env.botUsername env.rawText)
    have hcl : classify env.kind env.isReplyToBot env.botUsername env.rawText = .tooLong := by
      rw [classify]
      by_cases hg : isGroupish env.kind = true
      · rw [normalizedText, if_pos hg] at h4 hstrip
        rw [if_pos hg, if_neg ?hgateFalse]
        case hgateFalse =>
          rcases hgate hg with h | h <;> simp [h]
        rw [finishClassify, if_neg (by omega), if_pos (by omega)]
      · rw [normalizedText, if_neg hg] at h4 hstrip
        rw [if_neg hg, finishClassify, if_neg (by omega), if_pos (by omega)]
    refine ⟨hcl, ?_, ?_⟩ <;> simp [handle_message, hcl, htl]

theorem length_gate_checks_witness :
    classify .privateChat false "alexbot".data (List.replicate 4001 'a') = .tooLong ∧
    (handle_message
        ⟨.privateChat, false, "alexbot".data, List.replicate 4001 'a',
          fun _ => CallResult.success "hi".data, fun _ => SendResp.ok, true, true⟩).out =
      [tooLongText] ∧
    (handle_message
        ⟨.privateChat, false, "alexbot".data, List.replicate 4001 'a',
          fun _ => CallResult.success "hi".data, fun _ => SendResp.ok, true, true⟩).genPrompt =
      none :=
  (length_gate_checks
      ⟨.privateChat, false, "alexbot".data, List.replicate 4001 'a',
        fun _ => CallResult.success "hi".data, fun _ => SendResp.ok, true, true⟩).2
    (fun hg => absurd hg (by decide))
    (by
      show 4000 < (strip (normalizedText .privateChat "alexbot".data
        (List.replicate 4001 'a'))).length
      rw [normalizedText, if_neg (by decide), strip_replicate_a, List.length_replicate]
      omega)
    rfl

/-- C9 counterexample: the group message "@alexbot" contains the bot handle
    as a substring, yet the classifier ignores it (nothing is left after
    removing the handle and trimming), refuting "Respond if and only if
    reply-to-bot or handle substring". -/
theorem group_mention_iff_cex :
    containsSub ('@' :: "alexbot".data) "@alexbot".data = true ∧
    classify .group false "alexbot".data "@alexbot".data = .ignore := by
  decide

/-- C9 amended: a group-chat message gets Respond if and only if it is a
    reply to the bot or contains the handle as a substring AND the text
    left after removing all handle occurrences and trimming is non-empty
    and at most 4000 units; the forwarded text is always that residual. -/
theorem group_respond_iff (isReplyToBot : Bool) (u raw : List Char) :
    (classify .group isReplyToBot u raw =
        .respond (strip (replaceAll ('@' :: u) [] raw)) ↔
      (isReplyToBot = true ∨ containsSub ('@' :: u) raw = true) ∧
        (strip (strip (replaceAll ('@' :: u) [] raw))).length ≠ 0 ∧
        (strip (replaceAll ('@' :: u) [] raw)).length ≤ 4000) ∧
    (∀ s, classify .group isReplyToBot u raw = .respond s →
      s = strip (replaceAll ('@' :: u) [] raw)) := by
  constructor
  · rw [classify_group_eq]
    by_cases hgate : isReplyToBot = false ∧ containsSub ('@' :: u) raw = false
    · rw [if_pos hgate]
      constructor
      · intro h; exact absurd h (by simp)
      · rintro ⟨hor, -, -⟩
        rcases hor with h | h <;> simp [h] at hgate
    · rw [if_neg hgate]
      have hor : isReplyToBot = true ∨ containsSub ('@' :: u) raw = true := by
        rcases Bool.eq_false_or_eq_true isReplyToBot with h | h
        · exact Or.inl h
        · rcases Bool.eq_false_or_eq_true (containsSub ('@' :: u) raw) with h2 | h2
          · exact Or.inr h2
          · exact absurd ⟨h, h2⟩ hgate
      rw [finishClassify_eq_respond]
      simp [hor]
  · intro s h
    rw [classify_group_eq] at h
    by_cases hgate : isReplyToBot = false ∧ containsSub ('@' :: u) raw = false
    · rw [if_pos hgate] at h
      exact absurd h (by simp)
    · rw [if_neg hgate, finishClassify_eq_respond] at h
      exact h.2.2

theorem group_respond_iff_witness :
    classify .group false "alexbot".data "@alexbot hey".data =
      .respond (strip (replaceAll ('@' :: "alexbot".data) [] "@alexbot hey".data)) :=
  (group_respond_iff false "alexbot".data "@alexbot hey".data).1.mpr (by decide)

/-! ## Claim theorems: delivery sender and orchestration -/

/-- One unfolding of the delivery loop: the transport accepts the send. -/
theorem sendGo_ok_step (resp : Nat → SendResp) (attempt fuel : Nat)
    (hc : resp attempt = .ok) :
    sendGo resp attempt (fuel + 1) = ⟨.sent, [], 1⟩ := by
  unfold sendGo; rw [hc]

/-- One unfolding of the delivery loop: `RetryAfter` sleeps the reported
    duration and continues into the next loop iteration. -/
theorem sendGo_retryAfter_step (resp : Nat → SendResp) (attempt fuel r : Nat)
    (hc : resp attempt = .retryAfter r) :
    sendGo resp attempt (fuel + 1) =
      ⟨(sendGo resp (attempt + 1) fuel).outcome,
        r :: (sendGo resp (attempt + 1) fuel).sleeps,
        (sendGo resp (attempt + 1) fuel).calls + 1⟩ := by
  conv_lhs => rw [sendGo]
  rw [hc]

theorem sendGo_ra_then_ok (resp : Nat → SendResp) (rs : Nat → Nat) :
    ∀ (k attempt fuel : Nat), k < fuel →
      (∀ i, i < k → resp (attempt + i) = .retryAfter (rs (attempt + i))) →
      resp (attempt + k) = .ok →
      sendGo resp attempt fuel =
        ⟨.sent, (List.range k).map (fun i => rs (attempt + i)), k + 1⟩ := by
  intro k
  induction k with
  | zero =>
    intro attempt fuel _ _ hok
    obtain ⟨f, rfl⟩ : ∃ f, fuel = f + 1 := ⟨fuel - 1, by omega⟩
    rw [Nat.add_zero] at hok
    rw [sendGo_ok_step resp attempt f hok]
    simp
  | succ k ih =>
    intro attempt fuel hk hra hok
    obtain ⟨f, rfl⟩ : ∃ f, fuel = f + 1 := ⟨fuel - 1, by omega⟩
    have h0 := hra 0 (Nat.succ_pos k)
    rw [Nat.add_zero] at h0
    have hrec := ih (attempt + 1) f (by omega)
      (fun i hi => by
        rw [show attempt + 1 + i = attempt + (i + 1) by omega]
        exact hra (i + 1) (by omega))
      (by rw [show attempt + 1 + k = attempt + (k + 1) by omega]; exact hok)
    rw [sendGo_retryAfter_step resp attempt f (rs attempt) h0, hrec, range_map_shift]

theorem sendGo_ra_all (resp : Nat → SendResp) (rs : Nat → Nat) :
    ∀ (fuel attempt : Nat),
      (∀ i, i < fuel → resp (attempt + i) = .retryAfter (rs (attempt + i))) →
      sendGo resp attempt fuel =
        ⟨.returnedNone, (List.range fuel).map (fun i => rs (attempt + i)), fuel⟩ := by
  intro fuel
  induction fuel with
  | zero => intro attempt _; rfl
  | succ f ih =>
    intro attempt hra
    have h0 := hra 0 (Nat.succ_pos f)
    rw [Nat.add_zero] at h0
    have hrec := ih (attempt + 1)
      (fun i hi => by
        rw [show attempt + 1 + i = attempt + (i + 1) by omega]
        exact hra (i + 1) (by omega))
    rw [sendGo_retryAfter_step resp attempt f (rs attempt) h0, hrec, range_map_shift]

/-- C4 counterexample: when the transport reports `RetryAfter` on every
    attempt, the sender sleeps three times but performs only the three
    budgeted send attempts and then returns without sending — the third
    transport-requested wait is not followed by a retry, so such retries DO
    count against the attempt budget. -/
theorem delivery_retry_after_cex :
    send_message_with_retry (fun _ => SendResp.retryAfter 7) =
      ⟨.returnedNone, [7, 7, 7], 3⟩ := by
  decide

/-- C4 amended: on `RetryAfter` the sender sleeps exactly the reported
    duration and, when loop iterations remain, retries the send; but every
    `RetryAfter` consumes one iteration of the shared MAX_RETRIES budget,
    and after a `RetryAfter` on the final iteration the sender sleeps and
    returns without sending and without error. -/
theorem delivery_retry_after_amended :
    (∀ (resp : Nat → SendResp) (rs : Nat → Nat) (k : Nat), k < MAX_RETRIES →
      (∀ i, i < k → resp i = .retryAfter (rs i)) → resp k = .ok →
      send_message_with_retry resp = ⟨.sent, (List.range k).map rs, k + 1⟩) ∧
    (∀ (resp : Nat → SendResp) (rs : Nat → Nat),
      (∀ i, i < MAX_RETRIES → resp i = .retryAfter (rs i)) →
      send_message_with_retry resp =
        ⟨.returnedNone, (List.range MAX_RETRIES).map rs, MAX_RETRIES⟩) := by
  constructor
  · intro resp rs k hk hra hok
    have h := sendGo_ra_then_ok resp rs k 0 MAX_RETRIES hk
      (fun i hi => by rw [Nat.zero_add]; exact hra i hi)
      (by rw [Nat.zero_add]; exact hok)
    rw [send_message_with_retry, h]
    simp only [Nat.zero_add]
  · intro resp rs hra
    have h := sendGo_ra_all resp rs MAX_RETRIES 0
      (fun i hi => by rw [Nat.zero_add]; exact hra i hi)
    rw [send_message_with_retry, h]
    simp only [Nat.zero_add]

theorem delivery_retry_after_amended_witness :
    send_message_with_retry (fun n => if n = 0 then SendResp.retryAfter 5 else SendResp.ok) =
      ⟨.sent, (List.range 1).map (fun _ => 5), 2⟩ :=
  delivery_retry_after_amended.1
    (fun n => if n = 0 then SendResp.retryAfter 5 else SendResp.ok)
    (fun _ => 5) 1 (by decide) (by decide) (by decide)

/-- C3 counterexample: a private-chat message that passes classification
    can yield zero outbound messages: if the transport reports `RetryAfter`
    on every delivery attempt, the delivery loop exhausts its budget
    sleeping, returns `None` without raising, and `handle_message`
    completes with no message sent at all. -/
theorem one_outbound_cex :
    classify .privateChat false "alexbot".data "hi".data = .respond "hi".data ∧
    (handle_message
        ⟨.privateChat, false, "alexbot".data, "hi".data,
          fun _ => CallResult.success "ok".data, fun _ => SendResp.retryAfter 1,
          true, true⟩).out = [] := by
  decide

/-- C3 amended: every message that passes classification yields AT MOST one
    outbound chat message, and exactly one whenever the transport accepts
    the send attempts; zero outbound messages occur only when delivery
    itself fails (all attempts fail, or the budget is exhausted by
    transport-requested waits, and any final fallback attempt also fails). -/
theorem one_outbound_amended (env : HandlerEnv)
    (h : classify env.kind env.isReplyToBot env.botUsername env.rawText ≠ .ignore) :
    (handle_message env).out.length ≤ 1 ∧
    ((∀ n, env.sendResp n = .ok) → env.tooLongSendOk = true →
      (handle_message env).out.length = 1) := by
  cases hc : classify env.kind env.isReplyToBot env.botUsername env.rawText with
  | ignore => exact absurd hc h
  | tooLong =>
    constructor
    · by_cases h1 : env.tooLongSendOk = true <;> by_cases h2 : env.fallbackSendOk = true <;>
        simp [handle_message, hc, h1, h2]
    · intro _ htl
      simp [handle_message, hc, htl]
  | respond t =>
    constructor
    · cases hs : (send_message_with_retry env.sendResp).outcome <;>
        by_cases h2 : env.fallbackSendOk = true <;>
        simp [handle_message, hc, hs, h2]
    · intro hall _
      have hsend : send_message_with_retry env.sendResp = ⟨.sent, [], 1⟩ := by
        rw [send_message_with_retry]
        exact sendGo_ok_step env.sendResp 0 2 (hall 0)
      simp [handle_message, hc, hsend]

theorem one_outbound_amended_witness :
    (handle_message
        ⟨.privateChat, false, "alexbot".data, "hi".data,
          fun _ => CallResult.success "ok".data, fun _ => SendResp.ok,
          true, true⟩).out.length = 1 :=
  (one_outbound_amended
      ⟨.privateChat, false, "alexbot".data, "hi".data,
        fun _ => CallResult.success "ok".data, fun _ => SendResp.ok, true, true⟩
      (by decide)).2 (fun _ => rfl) rfl

/-- C10: the `raise APIError("Max retries exceeded")` after the attempt
    loop is unreachable: for every behaviour of the wrapped call, the run
    of `exponential_backoff_retry` with the configured MAX_RETRIES ends in
    a return or an in-loop raise, never in the post-loop raise. -/
theorem generation_retry_fallthrough_unreachable (call : Nat → CallResult) :
    (exponential_backoff_retry MAX_RETRIES call).outcome ≠ .apiError maxRetriesExceededMsg :=
  retryGo_ne_maxExceeded call MAX_RETRIES MAX_RETRIES 0 (Nat.zero_add _) (by decide)

theorem generation_retry_fallthrough_unreachable_witness :
    (exponential_backoff_retry MAX_RETRIES
        (fun _ => CallResult.failure "boom".data)).outcome ≠
      RetryOutcome.apiError maxRetriesExceededMsg :=
  generation_retry_fallthrough_unreachable (fun _ => CallResult.failure "boom".data)

end Bot
